import Mathlib

/-!
Verification of the weather application's frontend retrieval pipeline.

The definitions below are a shallow embedding of the TypeScript sources:

* `src/frontend/src/lib/api.ts` — the `getWeather` API client, its
  `CityWeather` / `ErrorResponse` data shapes, and the `WeatherAPIError`
  classification performed in its catch handler;
* `src/frontend/src/components/WeatherForm.tsx` — the `handleSubmit`
  validation logic (both variants of the component share the same
  validation; the variant with the double-submission guard is embedded,
  the other is the special case with the guard flags false).

JavaScript strings are modelled as Lean `String`; `trim`, `toLowerCase`
and the `x || fallback` idiom on strings are embedded as list-based
functions so that all definitions evaluate by kernel reduction.
The backend retrieval use case and cache are not part of `src/`
(only the frontend is shipped); they are modelled from the spec where a
claim requires them.
-/

namespace Weather

/-- JavaScript `String.prototype.trim`: removes leading and trailing
whitespace. Embedded over the character list so it computes by `decide`. -/
def jsTrim (s : String) : String :=
  String.mk (((s.data.dropWhile Char.isWhitespace).reverse.dropWhile Char.isWhitespace).reverse)

/-- JavaScript `String.prototype.toLowerCase`, embedded character-wise. -/
def jsToLower (s : String) : String :=
  String.mk (s.data.map Char.toLower)

/-- JavaScript `s || fallback` on an optionally-present string field:
the fallback is used when the field is absent (`undefined`) or is the
empty string (both are falsy in JavaScript). -/
def jsOr (s : Option String) (fallback : String) : String :=
  match s with
  | some v => if v = "" then fallback else v
  | none => fallback

/-- `CityWeather` from api.ts: the normalized weather record shape.
Floating-point fields are modelled as `Int`; no claim computes with them,
they only pass through the client unmodified. -/
structure CityWeather where
  city : String
  temperature : Int
  humidity : Int
  wind_speed : Int
  condition : String
  fetched_at : String
  provider : String
  deriving DecidableEq, Repr

/-- The body of an HTTP error response, as read by `getWeather`'s catch
handler after the unchecked cast `as ErrorResponse`: each field may be
absent at runtime (the cast validates nothing), and the handler guards
`code` and `message` with the `||` fallback idiom. -/
structure ErrorBody where
  code : Option String
  message : Option String
  details : Option (List (String × String))
  deriving DecidableEq, Repr

/-- `error.response` of an axios error: the HTTP status and the response
body; `data = none` models an absent or falsy body (the
`error.response?.data` guard in api.ts). -/
structure HttpErrorResponse where
  status : Nat
  data : Option ErrorBody
  deriving DecidableEq, Repr

/-- An axios error value: its transport error `code` (e.g.
`"ECONNABORTED"` on timeout) and its optional HTTP response. -/
structure AxiosErrorValue where
  code : Option String
  response : Option HttpErrorResponse
  deriving DecidableEq, Repr

/-- A JavaScript value thrown by the HTTP layer that is not an axios
error: a plain `Error`, some other object, or `undefined`. -/
inductive JSValue where
  | plainError (msg : String)
  | object (tag : String)
  | undef
  deriving DecidableEq, Repr

/-- A rejection from the underlying HTTP call, split by the
`axios.isAxiosError(error)` test in `getWeather`. -/
inductive Rejection where
  | axiosErr (e : AxiosErrorValue)
  | nonAxios (v : JSValue)
  deriving DecidableEq, Repr

/-- Outcome of the underlying `api.get` call: a resolved response
carrying a `CityWeather` payload, or a rejection. -/
inductive HttpResult where
  | success (data : CityWeather)
  | failure (e : Rejection)
  deriving DecidableEq, Repr

/-- `WeatherAPIError` from api.ts: message, code, HTTP status code and
structured details. -/
structure WeatherAPIError where
  message : String
  code : String
  statusCode : Nat
  details : List (String × String)
  deriving DecidableEq, Repr

/-- The outbound request `getWeather` issues: `api.get('/weather',
\x7b params: \x7b city: city.trim() \x7d \x7d)`. -/
structure WeatherRequest where
  path : String
  city : String
  deriving DecidableEq, Repr

/-- The request constructed by `getWeather` for an input city string. -/
def weatherRequest (city : String) : WeatherRequest :=
  { path := "/weather", city := jsTrim city }

/-- The catch handler of `getWeather` for an axios error, line by line
from api.ts:
1. `error.response?.data` truthy ⇒ classified `WeatherAPIError` built
   from the body with `||` fallbacks on `message` and `code`, and `\x7b\x7d`
   when `details` is absent;
2. otherwise `error.code === 'ECONNABORTED'` ⇒ `TIMEOUT` with status 408;
3. otherwise no `error.response` ⇒ `NETWORK_ERROR` with status 0;
4. otherwise ⇒ `UNKNOWN_ERROR` with the response status. -/
def handleAxiosError (e : AxiosErrorValue) : WeatherAPIError :=
  match e.response with
  | some r =>
    match r.data with
    | some body =>
      { message := jsOr body.message "Failed to fetch weather data"
        code := jsOr body.code "UNKNOWN_ERROR"
        statusCode := r.status
        details := body.details.getD [] }
    | none =>
      if e.code = some "ECONNABORTED" then
        { message := "Request timed out. Please try again."
          code := "TIMEOUT", statusCode := 408, details := [] }
      else
        { message := "Failed to fetch weather data"
          code := "UNKNOWN_ERROR", statusCode := r.status, details := [] }
  | none =>
    if e.code = some "ECONNABORTED" then
      { message := "Request timed out. Please try again."
        code := "TIMEOUT", statusCode := 408, details := [] }
    else
      { message := "Unable to connect to weather service. Please check your internet connection."
        code := "NETWORK_ERROR", statusCode := 0, details := [] }

/-- Result of `getWeather` as observed by its caller: the returned
record, a thrown `WeatherAPIError`, or a re-thrown non-axios value. -/
inductive GetWeatherResult where
  | ok (data : CityWeather)
  | apiError (e : WeatherAPIError)
  | reraised (v : JSValue)
  deriving DecidableEq, Repr

/-- `getWeather` from api.ts, parametrized by the HTTP layer: issue the
request with the trimmed city, return the response data on success;
on rejection classify axios errors with the catch handler and re-throw
anything else unmodified. -/
def getWeather (http : WeatherRequest → HttpResult) (city : String) : GetWeatherResult :=
  match http (weatherRequest city) with
  | .success d => .ok d
  | .failure (.axiosErr e) => .apiError (handleAxiosError e)
  | .failure (.nonAxios v) => .reraised v

/-- Observable outcome of `handleSubmit` in WeatherForm.tsx: an early
return from the double-submission guard, a validation rejection with the
input-error message set (no `onSubmit` call), or a call of
`onSubmit(trimmedCity)`. -/
inductive SubmitOutcome where
  | blocked
  | invalid (msg : String)
  | submitted (city : String)
  deriving DecidableEq, Repr

/-- `handleSubmit` from WeatherForm.tsx: return early while submitting
or loading; trim the city state; reject empty (`!trimmedCity`) and
over-long (`trimmedCity.length > 100`) input before submitting; else
invoke `onSubmit` with the trimmed city. The variant of the component
without the guard is the `false`/`false` instance. -/
def handleSubmit (isSubmitting loading : Bool) (city : String) : SubmitOutcome :=
  if isSubmitting || loading then .blocked
  else
    let trimmedCity := jsTrim city
    if trimmedCity = "" then .invalid "Please enter a city name"
    else if trimmedCity.length > 100 then .invalid "City name cannot exceed 100 characters"
    else .submitted trimmedCity

/-- Modelled from the spec: the normalized cache key of the backend
Retrieval Use Case (the backend is not under `src/`; only the frontend
is shipped). Per §3, the key is the case-folded, trimmed input string. -/
def normalizeKey (city : String) : String := jsToLower (jsTrim city)

/-- Modelled from the spec: the payload the Provider Adapter resolves
for a city, before the use case stamps `fetched_at` (§3: `fetched_at`
is set at fetch time). -/
structure ProviderPayload where
  city : String
  temperature : Int
  humidity : Int
  wind_speed : Int
  condition : String
  deriving DecidableEq, Repr

/-- Modelled from the spec: a Normalized Weather Record held by the
backend, its provider payload plus the fetch timestamp (§3). Time is
modelled as `Nat` seconds. -/
structure WeatherRecord where
  payload : ProviderPayload
  fetched_at : Nat
  deriving DecidableEq, Repr

/-- Modelled from the spec: a cache entry, the record plus its insertion
timestamp (§3, Cache Entry). -/
structure CacheEntry where
  record : WeatherRecord
  insertedAt : Nat
  deriving DecidableEq, Repr

/-- Modelled from the spec: the cache store, an association list keyed
by normalized city key; the most recent `put` for a key is found first
(last-write-wins, §4.3). -/
abbrev Cache := List (String × CacheEntry)

/-- Modelled from the spec: cache `get` with passive expiry (§4.3): an
entry whose age exceeds the TTL is treated as absent without being
deleted. -/
def cacheGet (ttl now : Nat) (c : Cache) (key : String) : Option WeatherRecord :=
  match c.lookup key with
  | some e => if ttl < now - e.insertedAt then none else some e.record
  | none => none

/-- Modelled from the spec: cache `put` (§4.3), overwriting any existing
entry for the key (the new binding shadows older ones under lookup). -/
def cachePut (c : Cache) (key : String) (e : CacheEntry) : Cache :=
  (key, e) :: c

/-- Modelled from the spec: outcome of the Retrieval Use Case (§4.1):
a record, or the `InvalidInput` rejection. -/
inductive UseCaseOutcome where
  | ok (r : WeatherRecord)
  | invalidInput
  deriving DecidableEq, Repr

/-- Modelled from the spec: result of one invocation of the Retrieval
Use Case — its outcome, the cache state after the call, and whether the
Provider Adapter was invoked. -/
structure UseCaseResult where
  outcome : UseCaseOutcome
  cache : Cache
  providerCalled : Bool
  deriving DecidableEq, Repr

/-- Modelled from the spec: the backend Retrieval Use Case `getWeather`
(§4.1), absent from `src/`. Steps: validate the trimmed input (empty or
over 100 characters ⇒ `InvalidInput`, no cache or provider access);
look up the normalized key, returning a live entry's record unchanged;
on a miss, delegate to the provider with the trimmed city, stamp
`fetched_at` with the current time, write the record to the cache and
return it. -/
def retrieveWeather (ttl : Nat) (provider : String → ProviderPayload)
    (now : Nat) (cache : Cache) (cityInput : String) : UseCaseResult :=
  let trimmed := jsTrim cityInput
  if trimmed = "" then
    { outcome := .invalidInput, cache := cache, providerCalled := false }
  else if 100 < trimmed.length then
    { outcome := .invalidInput, cache := cache, providerCalled := false }
  else
    let key := normalizeKey cityInput
    match cacheGet ttl now cache key with
    | some r => { outcome := .ok r, cache := cache, providerCalled := false }
    | none =>
      let record : WeatherRecord := { payload := provider trimmed, fetched_at := now }
      { outcome := .ok record
        cache := cachePut cache key { record := record, insertedAt := now }
        providerCalled := true }

/-- A concrete provider used to evaluate the retrieval pipeline on
sample inputs. -/
def sampleProvider (s : String) : ProviderPayload :=
  { city := s, temperature := 20, humidity := 50, wind_speed := 10, condition := "Sunny" }

/-- C1: for every city input whose trimmed form is empty or longer than
100 characters, `handleSubmit` rejects with the input-error message set
(the `InvalidInput` signal), and under no guard state does the submit
path invoke `onSubmit` — so no adapter or HTTP call is issued and the
rejection has no cache or network side effect. -/
theorem invalid_input_rejected_without_submit (c : String)
    (h : jsTrim c = "" ∨ 100 < (jsTrim c).length) :
    (∃ m, handleSubmit false false c = SubmitOutcome.invalid m) ∧
    ∀ s l x, handleSubmit s l c ≠ SubmitOutcome.submitted x := by
  constructor
  · rcases h with h | h
    · exact ⟨"Please enter a city name", by simp [handleSubmit, h]⟩
    · refine ⟨"City name cannot exceed 100 characters", ?_⟩
      have hne : ¬ jsTrim c = "" := by
        intro he; rw [he] at h; simp at h
      simp [handleSubmit, hne, h]
  · intro s l x
    match s, l with
    | true, _ => simp [handleSubmit]
    | false, true => simp [handleSubmit]
    | false, false =>
      rcases h with h | h
      · simp [handleSubmit, h]
      · have hne : ¬ jsTrim c = "" := by
          intro he; rw [he] at h; simp at h
        simp [handleSubmit, hne, h]

/-- C1 witness: the whitespace-only input is rejected and never
submitted. -/
theorem invalid_input_rejected_without_submit_witness :
    (jsTrim "   " = "" ∨ 100 < (jsTrim "   ").length) ∧
    ((∃ m, handleSubmit false false "   " = SubmitOutcome.invalid m) ∧
     ∀ s l x, handleSubmit s l "   " ≠ SubmitOutcome.submitted x) :=
  ⟨Or.inl (by decide),
   invalid_input_rejected_without_submit "   " (Or.inl (by decide))⟩

/-- C2 counterexample: an HTTP error response whose body carries the
fields code, message and details but with empty-string code and message
is not surfaced unmodified — the catch handler's `||` fallbacks replace
them with `UNKNOWN_ERROR` and a generic message, so the thrown error's
code and message differ from the body's. -/
theorem classified_error_surfaced_cx :
    handleAxiosError
      { code := none
        response := some
          { status := 500
            data := some { code := some "", message := some "", details := some [] } } }
      = { message := "Failed to fetch weather data", code := "UNKNOWN_ERROR",
          statusCode := 500, details := [] } := by
  decide

/-- C2 amended: for every HTTP error response whose body carries a
non-empty code, a non-empty message and a details object, `getWeather`
throws a `WeatherAPIError` whose code, message and details equal the
body's together with the response status — no local recovery, no retry,
no fallback data (empty-string code or message is replaced by the `||`
fallbacks). -/
theorem classified_error_surfaced (http : WeatherRequest → HttpResult)
    (c : String) (e : AxiosErrorValue) (r : HttpErrorResponse) (b : ErrorBody)
    (cs ms : String) (d : List (String × String))
    (hhttp : http (weatherRequest c) = HttpResult.failure (Rejection.axiosErr e))
    (hr : e.response = some r) (hb : r.data = some b)
    (hc : b.code = some cs) (hcne : cs ≠ "")
    (hm : b.message = some ms) (hmne : ms ≠ "")
    (hd : b.details = some d) :
    getWeather http c = GetWeatherResult.apiError
      { message := ms, code := cs, statusCode := r.status, details := d } := by
  simp [getWeather, hhttp, handleAxiosError, hr, hb, hc, hm, hd, jsOr, hcne, hmne]

/-- C2 witness: a body with code `UNKNOWN_CITY`, a non-empty message and
a details entry is surfaced with exactly those fields. -/
theorem classified_error_surfaced_witness :
    getWeather (fun _ => HttpResult.failure (Rejection.axiosErr
      { code := none
        response := some
          { status := 404
            data := some
              { code := some "UNKNOWN_CITY"
                message := some "City not found"
                details := some [("city", "Atlantis")] } } })) "Atlantis"
      = GetWeatherResult.apiError
      { message := "City not found", code := "UNKNOWN_CITY",
        statusCode := 404, details := [("city", "Atlantis")] } :=
  classified_error_surfaced _ "Atlantis" _ _ _ "UNKNOWN_CITY" "City not found" _
    rfl rfl rfl rfl (by decide) rfl (by decide) rfl

/-- C3: a transport-level timeout — an axios rejection with no response
and the `ECONNABORTED` code — makes `getWeather` throw the `TIMEOUT`
classification, never a success record and never a different kind. -/
theorem timeout_classified_as_timeout (http : WeatherRequest → HttpResult)
    (c : String) (e : AxiosErrorValue)
    (hhttp : http (weatherRequest c) = HttpResult.failure (Rejection.axiosErr e))
    (hnoresp : e.response = none) (hcode : e.code = some "ECONNABORTED") :
    getWeather http c = GetWeatherResult.apiError
      { message := "Request timed out. Please try again.", code := "TIMEOUT",
        statusCode := 408, details := [] } := by
  simp [getWeather, hhttp, handleAxiosError, hnoresp, hcode]

/-- C3 witness: a concrete timeout rejection yields the `TIMEOUT`
error. -/
theorem timeout_classified_as_timeout_witness :
    getWeather (fun _ => HttpResult.failure (Rejection.axiosErr
      { code := some "ECONNABORTED", response := none })) "London"
      = GetWeatherResult.apiError
      { message := "Request timed out. Please try again.", code := "TIMEOUT",
        statusCode := 408, details := [] } :=
  timeout_classified_as_timeout _ "London" _ rfl rfl rfl

/-- C4: a transport-level connection failure — an axios rejection with
no response and no timeout indication — makes `getWeather` throw the
`NETWORK_ERROR` classification. -/
theorem connection_failure_classified_as_network (http : WeatherRequest → HttpResult)
    (c : String) (e : AxiosErrorValue)
    (hhttp : http (weatherRequest c) = HttpResult.failure (Rejection.axiosErr e))
    (hnoresp : e.response = none) (hcode : e.code ≠ some "ECONNABORTED") :
    getWeather http c = GetWeatherResult.apiError
      { message := "Unable to connect to weather service. Please check your internet connection.",
        code := "NETWORK_ERROR", statusCode := 0, details := [] } := by
  simp [getWeather, hhttp, handleAxiosError, hnoresp, hcode]

/-- C4 witness: a connection-refused rejection with no response yields
the `NETWORK_ERROR` error. -/
theorem connection_failure_classified_as_network_witness :
    getWeather (fun _ => HttpResult.failure (Rejection.axiosErr
      { code := some "ECONNREFUSED", response := none })) "London"
      = GetWeatherResult.apiError
      { message := "Unable to connect to weather service. Please check your internet connection.",
        code := "NETWORK_ERROR", statusCode := 0, details := [] } :=
  connection_failure_classified_as_network _ "London" _ rfl rfl (by decide)

/-- C5: an HTTP error response carrying no classified taxonomy error —
either no body at all, or a body whose code field is absent or empty —
is mapped to the `UNKNOWN_ERROR` (`InternalProviderError`) kind, so the
closed taxonomy stays total. -/
theorem unrecognized_response_unknown_error (http : WeatherRequest → HttpResult)
    (c : String) (e : AxiosErrorValue) (r : HttpErrorResponse)
    (hhttp : http (weatherRequest c) = HttpResult.failure (Rejection.axiosErr e))
    (hr : e.response = some r)
    (hcode : e.code ≠ some "ECONNABORTED")
    (hb : r.data = none ∨ ∃ b, r.data = some b ∧ (b.code = none ∨ b.code = some "")) :
    ∃ w, getWeather http c = GetWeatherResult.apiError w ∧ w.code = "UNKNOWN_ERROR" := by
  refine ⟨handleAxiosError e, by simp [getWeather, hhttp], ?_⟩
  rcases hb with hb | ⟨b, hb, hbc⟩
  · simp [handleAxiosError, hr, hb, hcode]
  · rcases hbc with hbc | hbc <;> simp [handleAxiosError, hr, hb, hbc, jsOr]

/-- C5 witness: a 503 response with no body is classified as
`UNKNOWN_ERROR`. -/
theorem unrecognized_response_unknown_error_witness :
    ∃ w, getWeather (fun _ => HttpResult.failure (Rejection.axiosErr
      { code := none, response := some { status := 503, data := none } })) "London"
      = GetWeatherResult.apiError w ∧ w.code = "UNKNOWN_ERROR" :=
  unrecognized_response_unknown_error _ "London" _ _ rfl rfl (by decide) (Or.inl rfl)

/-- C6: whenever `getWeather` delegates a fetch for input `c`, the
outbound request carries the trimmed city string as its city
parameter. -/
theorem delegated_city_is_trimmed (c : String) :
    (weatherRequest c).city = jsTrim c := rfl

/-- C7 counterexample: the input of 100 spaces followed by `a` has
length exactly 101, yet `handleSubmit` does not reject it — it submits
the trimmed city `a`, refuting the claim that every length-101 input is
rejected with `InvalidInput`. -/
theorem length_101_input_accepted_cx :
    (String.mk (List.replicate 100 ' ') ++ "a").length = 101 ∧
    handleSubmit false false (String.mk (List.replicate 100 ' ') ++ "a")
      = SubmitOutcome.submitted "a" := by
  exact ⟨by decide, by decide⟩

/-- C7 amended: every input whose trimmed form has length exactly 101
is rejected with the over-length `InvalidInput` message. -/
theorem trimmed_length_101_rejected (c : String)
    (h : (jsTrim c).length = 101) :
    handleSubmit false false c
      = SubmitOutcome.invalid "City name cannot exceed 100 characters" := by
  have hne : ¬ jsTrim c = "" := by
    intro he; rw [he] at h; simp at h
  simp [handleSubmit, hne, h]

/-- C7 witness: the 101-character input of all `a` is rejected with the
over-length message. -/
theorem trimmed_length_101_rejected_witness :
    (jsTrim (String.mk (List.replicate 101 'a'))).length = 101 ∧
    handleSubmit false false (String.mk (List.replicate 101 'a'))
      = SubmitOutcome.invalid "City name cannot exceed 100 characters" :=
  ⟨by decide, trimmed_length_101_rejected _ (by decide)⟩

/-- C9: on an HTTP success, `getWeather` returns the response body
exactly as received, with no validation or transformation — an
invariant-violating payload is returned to the caller unchanged. -/
theorem success_returns_payload_unchanged (http : WeatherRequest → HttpResult)
    (c : String) (p : CityWeather)
    (h : http (weatherRequest c) = HttpResult.success p) :
    getWeather http c = GetWeatherResult.ok p := by
  simp [getWeather, h]

/-- C9 witness: a payload with humidity 150, negative wind speed and an
empty condition — violating the data-model invariants — is returned
unchanged. -/
theorem success_returns_payload_unchanged_witness :
    getWeather (fun _ => HttpResult.success
      { city := "London", temperature := 22, humidity := 150, wind_speed := -5,
        condition := "", fetched_at := "2024-01-15T10:30:00.000Z", provider := "weatherapi" })
      "London"
      = GetWeatherResult.ok
      { city := "London", temperature := 22, humidity := 150, wind_speed := -5,
        condition := "", fetched_at := "2024-01-15T10:30:00.000Z", provider := "weatherapi" } :=
  success_returns_payload_unchanged _ "London" _ rfl

/-- C10: when the HTTP call rejects with a value that is not an axios
error, `getWeather` re-throws that value unmodified, so the caller
observes an error outside the `WeatherAPIError` taxonomy. -/
theorem non_axios_rejection_rethrown (http : WeatherRequest → HttpResult)
    (c : String) (v : JSValue)
    (h : http (weatherRequest c) = HttpResult.failure (Rejection.nonAxios v)) :
    getWeather http c = GetWeatherResult.reraised v := by
  simp [getWeather, h]

/-- C10 witness: a rejection with `undefined` is re-thrown as-is. -/
theorem non_axios_rejection_rethrown_witness :
    getWeather (fun _ => HttpResult.failure (Rejection.nonAxios JSValue.undef)) "London"
      = GetWeatherResult.reraised JSValue.undef :=
  non_axios_rejection_rethrown _ "London" JSValue.undef rfl

/-- C8 (modelled from the spec, the backend use case being absent from
`src/`): for every valid non-empty city string of at most 100
characters, a successful fetch on an empty cache followed by a second
call for the same case/whitespace-insensitive key returns the identical
record with the identical `fetched_at` and no second provider call
while within the TTL window, and a freshly fetched record with a
strictly later `fetched_at` after TTL expiry. -/
theorem cache_hit_within_ttl_refetches_after (ttl t0 t1 : Nat)
    (provider : String → ProviderPayload) (c1 c2 : String)
    (h1ne : jsTrim c1 ≠ "") (h1len : (jsTrim c1).length ≤ 100)
    (h2ne : jsTrim c2 ≠ "") (h2len : (jsTrim c2).length ≤ 100)
    (hkey : normalizeKey c2 = normalizeKey c1) :
    (retrieveWeather ttl provider t0 [] c1).outcome
        = UseCaseOutcome.ok { payload := provider (jsTrim c1), fetched_at := t0 } ∧
    (t1 - t0 ≤ ttl →
      (retrieveWeather ttl provider t1 (retrieveWeather ttl provider t0 [] c1).cache c2).outcome
          = UseCaseOutcome.ok { payload := provider (jsTrim c1), fetched_at := t0 } ∧
      (retrieveWeather ttl provider t1 (retrieveWeather ttl provider t0 [] c1).cache c2).providerCalled
          = false) ∧
    (ttl < t1 - t0 →
      (retrieveWeather ttl provider t1 (retrieveWeather ttl provider t0 [] c1).cache c2).outcome
          = UseCaseOutcome.ok { payload := provider (jsTrim c2), fetched_at := t1 } ∧
      (retrieveWeather ttl provider t1 (retrieveWeather ttl provider t0 [] c1).cache c2).providerCalled
          = true ∧
      t0 < t1) := by
  have hlen1 : ¬ 100 < (jsTrim c1).length := Nat.not_lt.mpr h1len
  have hlen2 : ¬ 100 < (jsTrim c2).length := Nat.not_lt.mpr h2len
  have e1 : retrieveWeather ttl provider t0 [] c1 =
      { outcome := UseCaseOutcome.ok { payload := provider (jsTrim c1), fetched_at := t0 }
        cache := [(normalizeKey c1,
          { record := { payload := provider (jsTrim c1), fetched_at := t0 }
            insertedAt := t0 })]
        providerCalled := true } := by
    simp [retrieveWeather, cacheGet, cachePut, h1ne, hlen1]
  refine ⟨by rw [e1], ?_, ?_⟩
  · intro httl
    have hnl : ¬ ttl < t1 - t0 := Nat.not_lt.mpr httl
    rw [e1]
    constructor <;>
      simp [retrieveWeather, cacheGet, List.lookup, h2ne, hlen2, hkey, hnl]
  · intro httl
    have ht01 : t0 < t1 := by omega
    rw [e1]
    refine ⟨?_, ?_, ht01⟩ <;>
      simp [retrieveWeather, cacheGet, cachePut, List.lookup, h2ne, hlen2, hkey, httl]

/-- C8 witness: `London` fetched at time 0 with a 300-second TTL, then
re-requested at time 10 as ` london `. -/
theorem cache_hit_within_ttl_refetches_after_witness :
    (retrieveWeather 300 sampleProvider 0 [] "London").outcome
        = UseCaseOutcome.ok { payload := sampleProvider (jsTrim "London"), fetched_at := 0 } ∧
    (10 - 0 ≤ 300 →
      (retrieveWeather 300 sampleProvider 10 (retrieveWeather 300 sampleProvider 0 [] "London").cache " london ").outcome
          = UseCaseOutcome.ok { payload := sampleProvider (jsTrim "London"), fetched_at := 0 } ∧
      (retrieveWeather 300 sampleProvider 10 (retrieveWeather 300 sampleProvider 0 [] "London").cache " london ").providerCalled
          = false) ∧
    (300 < 10 - 0 →
      (retrieveWeather 300 sampleProvider 10 (retrieveWeather 300 sampleProvider 0 [] "London").cache " london ").outcome
          = UseCaseOutcome.ok { payload := sampleProvider (jsTrim " london "), fetched_at := 10 } ∧
      (retrieveWeather 300 sampleProvider 10 (retrieveWeather 300 sampleProvider 0 [] "London").cache " london ").providerCalled
          = true ∧
      0 < 10) :=
  cache_hit_within_ttl_refetches_after 300 0 10 sampleProvider "London" " london "
    (by decide) (by decide) (by decide) (by decide) (by decide)

end Weather
